import Mathlib

/-!
Shallow embedding of the Beng-Eng-Translate repository.

* `server.py` — the Process Supervisor: the module-level tables
  `active_processes` / `process_logs`, and the handlers `_start_bot`,
  `_stop_bot`, `_get_bot_logs`.  External effects (port probe, `lsof`,
  kills, spawn, sleeps, the post-spawn poll) are captured by an
  environment record describing what the operating system answers, and
  by an explicit trace of the actions the handler performs.
* `bot.py` — the session-timeout handling (`on_session_timeout`,
  `SessionTimeoutHandler`), the `TranslationProcessor` stage and the
  `TranscriptHandler`.

Machine state that lives outside the Python process (which spawned pids
are presently alive) is modelled by `World`; the trace of performed
`Action`s drives it, so that invariants over "workers tracked as
active" can be stated.
-/

namespace Translate

/-- `process_logs[pid]`: the two append-only per-worker line buffers. -/
structure Logs where
  stdout : List String
  stderr : List String
deriving DecidableEq, Repr

/-- Python-dict lookup on an association list keyed by pid. -/
def dlookup {α : Type} (d : List (Nat × α)) (k : Nat) : Option α :=
  (d.find? (fun p => p.1 == k)).map Prod.snd

/-- Python-dict assignment `d[k] = v`: overwrite in place if the key is
present, otherwise append (insertion order preserved, as in Python). -/
def dinsert {α : Type} : List (Nat × α) → Nat → α → List (Nat × α)
  | [], k, v => [(k, v)]
  | p :: ps, k, v => if p.1 == k then (k, v) :: ps else p :: dinsert ps k v

/-- Key insertion for the `active_processes` key set (dict assignment:
a fresh key is appended, an existing key keeps its position). -/
def insertKey (l : List Nat) (k : Nat) : List Nat :=
  if k ∈ l then l else l ++ [k]

/-- The supervisor's module-level mutable state: the key set of
`active_processes` (the handles themselves are opaque) and
`process_logs`. -/
structure ServerState where
  active : List Nat
  logs : List (Nat × Logs)
deriving DecidableEq, Repr

/-- `active_processes = {}` and `process_logs = {}` at module load. -/
def initState : ServerState := ⟨[], []⟩

/-- Pids of spawned workers that are currently alive in the operating
system: the machine-level state the supervisor's kills and spawns act
on. -/
structure World where
  alive : List Nat
deriving DecidableEq, Repr

def initWorld : World := ⟨[]⟩

/-- One externally visible action performed by a supervisor handler, in
program order.  Durations are in the source's seconds. -/
inductive Action
  | taskkillPython
  | sigkill (pid : Nat)
  | pkillBotPy
  | sleep (seconds : ℚ)
  | spawn (pid : Nat)
  | poll (pid : Nat)
  | sigterm (pid : Nat)
  | waitChild (pid : Nat) (timeout : ℚ)
deriving DecidableEq, Repr

/-- Effect of one action on the set of live worker pids.
`taskkill /F /IM python.exe` and `pkill -f bot.py` are broad kills that
take down every live worker; `os.kill(pid, SIGKILL)` removes that pid;
`Popen` adds the new pid.  Sleeps, polls, waits and SIGTERM (which a
worker may ignore; whether it exits is decided by the step functions'
environment flags) leave the set unchanged. -/
def applyAction (w : World) : Action → World
  | .taskkillPython => ⟨[]⟩
  | .sigkill p => ⟨w.alive.filter (fun a => a != p)⟩
  | .pkillBotPy => ⟨[]⟩
  | .spawn p => ⟨w.alive ++ [p]⟩
  | _ => w

/-- Recognizer for the single `process.poll()` liveness probe in the
action trace. -/
def isPollAction : Action → Bool
  | .poll _ => true
  | _ => false

/-- Recognizer for the `subprocess.Popen` spawn in the action trace. -/
def isSpawnAction : Action → Bool
  | .spawn _ => true
  | _ => false

/-- What `process.communicate()` and `process.returncode` report when
the 0.5 s poll finds the worker already exited. -/
structure EarlyExit where
  returncode : Int
  stdout : String
  stderr : String
deriving DecidableEq, Repr

/-- Everything the operating system answers during one `_start_bot`
call: the port-8765 probe, the platform, whether `lsof` exists and what
it prints, the preflight file-existence checks, the pid `Popen`
assigns, and whether the 0.5 s poll sees the process already dead. -/
structure StartEnv where
  portInUse : Bool
  platformWin32 : Bool
  lsofAvail : Bool
  lsofPids : List Nat
  scriptDir : String
  credsExists : Bool
  envExists : Bool
  spawnPid : Nat
  earlyExit : Option EarlyExit
deriving DecidableEq, Repr

/-- The JSON body `_start_bot` writes back. -/
inductive StartResult
  | missingCreds (msg : String)
  | missingEnv (msg : String)
  | earlyExitFail (returncode : Int) (error : String)
  | success (pid : Nat)
deriving DecidableEq, Repr

def credsMsg (dir : String) : String :=
  "Google Cloud credentials file not found at " ++ dir ++
    "/creds.json. Please create this file with your Google Cloud credentials."

def envMsg (dir : String) : String :=
  ".env file not found at " ++ dir ++
    "/.env. Please create this file with your OpenAI API key."

/-- The reclamation block of `_start_bot`: if the probe found port 8765
bound, on win32 run `taskkill /F /IM python.exe`; otherwise try
`lsof -ti :8765` and SIGKILL each reported pid; if `lsof` is missing
(`FileNotFoundError`), fall back to `pkill -f bot.py`; then
`time.sleep(1)`.  Nothing happens when the port is free. -/
def reclaimActions (e : StartEnv) : List Action :=
  if e.portInUse then
    (if e.platformWin32 then [.taskkillPython]
     else if e.lsofAvail then e.lsofPids.map Action.sigkill
     else [.pkillBotPy]) ++ [.sleep 1]
  else []

structure StartOut where
  world : World
  state : ServerState
  result : StartResult
  actions : List Action
deriving DecidableEq, Repr

/-- `_start_bot` (server.py lines 95–208): best-effort port
reclamation, preflight for `creds.json` then `.env`, spawn, immediate
registration of the pid in both tables, `time.sleep(0.5)`, one
`process.poll()`, and the success/failure response.  On the early-exit
failure path the pid stays registered in both tables. -/
def startStep (e : StartEnv) (w : World) (s : ServerState) : StartOut :=
  let acts := reclaimActions e
  let w1 := acts.foldl applyAction w
  if e.credsExists = false then
    ⟨w1, s, .missingCreds (credsMsg e.scriptDir), acts⟩
  else if e.envExists = false then
    ⟨w1, s, .missingEnv (envMsg e.scriptDir), acts⟩
  else
    let pid := e.spawnPid
    let s1 : ServerState := ⟨insertKey s.active pid, dinsert s.logs pid ⟨[], []⟩⟩
    let acts1 := acts ++ [.spawn pid, .sleep (1/2), .poll pid]
    match e.earlyExit with
    | some ex =>
        ⟨⟨(w1.alive ++ [pid]).filter (fun a => a != pid)⟩, s1,
          .earlyExitFail ex.returncode ex.stderr, acts1⟩
    | none => ⟨⟨w1.alive ++ [pid]⟩, s1, .success pid, acts1⟩

/-- Operating-system answers during one `_stop_bot` call: the platform,
the `lsof` answers for the `force_port` mode, whether the worker exits
inside `process.wait(timeout=3)`, and whether the SIGTERM / SIGKILL
system calls raise (e.g. `ProcessLookupError` on an already-dead pid;
an uncaught raise lands in the handler's outer `except`). -/
structure StopEnv where
  platformWin32 : Bool
  lsofAvail : Bool
  lsofPids : List Nat
  gracefulExitInTime : Bool
  sigtermRaises : Bool
  sigkillRaises : Bool
deriving DecidableEq, Repr

/-- The JSON body `_stop_bot` writes back: `{"success": true}`, the
`"Process not found"` failure, or the 500 response produced by the
outer `except` (whose message is the raised exception's text). -/
inductive StopResult
  | success
  | notFound
  | stopError
deriving DecidableEq, Repr

/-- Python truthiness of `data.get('pid')` / `data.get('force_port')`:
absent (`None`) and `0` are falsy. -/
def optTruthy : Option Nat → Bool
  | none => false
  | some n => n != 0

/-- The `force_port` mode of `_stop_bot`: same platform-specific kill
cascade as Start's reclamation, without the trailing sleep. -/
def forcePortActions (e : StopEnv) : List Action :=
  if e.platformWin32 then [.taskkillPython]
  else if e.lsofAvail then e.lsofPids.map Action.sigkill
  else [.pkillBotPy]

structure StopOut where
  world : World
  state : ServerState
  result : StopResult
  actions : List Action
deriving DecidableEq, Repr

/-- `_stop_bot` (server.py lines 210–290).  `force_port` bypasses the
table and always reports success.  A falsy or untracked pid reports
"Process not found" with no side effects.  Otherwise: `force` sends an
immediate hard kill; else SIGTERM, `process.wait(timeout=3)`, and a
hard kill only if the wait times out.  When no signal call raises, the
pid is deleted from `active_processes` while `process_logs` is kept;
a raise skips the deletion and yields the 500 response. -/
def stopStep (pidArg : Option Nat) (force : Bool) (forcePort : Option Nat)
    (e : StopEnv) (w : World) (s : ServerState) : StopOut :=
  if optTruthy forcePort then
    let acts := forcePortActions e
    ⟨acts.foldl applyAction w, s, .success, acts⟩
  else
    match pidArg with
    | none => ⟨w, s, .notFound, []⟩
    | some pid =>
      if pid = 0 ∨ pid ∉ s.active then ⟨w, s, .notFound, []⟩
      else if force then
        if e.sigkillRaises then ⟨w, s, .stopError, [.sigkill pid]⟩
        else
          ⟨⟨w.alive.filter (fun a => a != pid)⟩,
            ⟨s.active.filter (fun a => a != pid), s.logs⟩, .success, [.sigkill pid]⟩
      else
        if e.sigtermRaises then ⟨w, s, .stopError, [.sigterm pid]⟩
        else if e.gracefulExitInTime then
          ⟨⟨w.alive.filter (fun a => a != pid)⟩,
            ⟨s.active.filter (fun a => a != pid), s.logs⟩, .success,
            [.sigterm pid, .waitChild pid 3]⟩
        else if e.sigkillRaises then
          ⟨w, s, .stopError, [.sigterm pid, .waitChild pid 3, .sigkill pid]⟩
        else
          ⟨⟨w.alive.filter (fun a => a != pid)⟩,
            ⟨s.active.filter (fun a => a != pid), s.logs⟩, .success,
            [.sigterm pid, .waitChild pid 3, .sigkill pid]⟩

/-- The JSON body `_get_bot_logs` writes back. -/
inductive LogsResult
  | ok (pid : Nat) (stdout stderr : List String)
  | noLogs
deriving DecidableEq, Repr

/-- `max(process_logs.keys())`, total via a 0 seed (only used on a
nonempty key list, as in the source's guarded call). -/
def listMax (l : List Nat) : Nat := l.foldl max 0

/-- The no-pid branch of `_get_bot_logs`: if any log record exists,
return the record of the highest pid, else the "No bot logs available"
failure. -/
def latestLogs (s : ServerState) : LogsResult :=
  if s.logs.isEmpty then .noLogs
  else
    match dlookup s.logs (listMax (s.logs.map Prod.fst)) with
    | some l => .ok (listMax (s.logs.map Prod.fst)) l.stdout l.stderr
    | none => .noLogs

/-- `_get_bot_logs` (server.py lines 292–326): a truthy pid with a log
record returns its lines; a falsy/absent pid falls back to the most
recently assigned pid when any record exists; otherwise the structured
"No bot logs available" failure. -/
def getBotLogs (pidArg : Option Nat) (s : ServerState) : LogsResult :=
  match pidArg with
  | some pid =>
      if pid = 0 then latestLogs s
      else
        match dlookup s.logs pid with
        | some l => .ok pid l.stdout l.stderr
        | none => .noLogs
  | none => latestLogs s

/-- One control-surface call with the operating-system answers it
observes. -/
inductive Call
  | start (e : StartEnv)
  | stop (pidArg : Option Nat) (force : Bool) (forcePort : Option Nat) (e : StopEnv)
deriving DecidableEq, Repr

def doCall (ws : World × ServerState) : Call → World × ServerState
  | .start e => ((startStep e ws.1 ws.2).world, (startStep e ws.1 ws.2).state)
  | .stop p f fp e => ((stopStep p f fp e ws.1 ws.2).world, (stopStep p f fp e ws.1 ws.2).state)

/-- Run a sequence of control-surface calls from module load. -/
def runCalls (cs : List Call) : World × ServerState :=
  cs.foldl doCall (initWorld, initState)

/-- Number of live worker processes that are tracked in
`active_processes` — the workers in spec-state {Starting, Running}. -/
def activeAliveCount (w : World) (s : ServerState) : Nat :=
  (w.alive.filter (fun p => s.active.contains p)).length

/-! ## bot.py: session-timeout handling -/

/-- The control frames the timeout handling queues into the pipeline
task (`BotInterruptionFrame`, `EndFrame`). -/
inductive BFrame
  | botInterruption
  | endFrame
deriving DecidableEq, Repr

/-- Observable session state for the timeout machinery: the frames
queued into the pipeline task so far (in `queue_frames` order) and the
number of scheduled `_end_call` background tasks that have not yet
fired. -/
structure BotState where
  queued : List BFrame
  pendingTimers : Nat
deriving DecidableEq, Repr

def botInit : BotState := ⟨[], 0⟩

/-- The `on_session_timeout` transport handler (bot.py lines 255–260)
together with `SessionTimeoutHandler.handle_timeout` (lines 134–147):
each notification constructs a fresh `SessionTimeoutHandler`, queues a
`BotInterruptionFrame`, and schedules one `_end_call` background
task. -/
def onSessionTimeout (s : BotState) : BotState :=
  { queued := s.queued ++ [.botInterruption], pendingTimers := s.pendingTimers + 1 }

/-- The grace delay `_end_call` sleeps before ending the session
(`asyncio.sleep(3)`). -/
def graceDelay : ℚ := 3

/-- One scheduled `_end_call` task firing after `graceDelay`: queues a
`BotInterruptionFrame` and an `EndFrame` (bot.py lines 149–160). -/
def fireEndCall (s : BotState) : BotState :=
  { queued := s.queued ++ [.botInterruption, .endFrame],
    pendingTimers := s.pendingTimers - 1 }

/-! ## bot.py: TranslationProcessor -/

/-- One chat message of the LLM context built by the translation
stage. -/
structure ChatMsg where
  role : String
  content : String
deriving DecidableEq, Repr

/-- Frames flowing through `TranslationProcessor`: a
`TranscriptionFrame` carrying recognized text, an `LLMMessagesFrame`
carrying a context, or any other frame kind (opaque tag). -/
inductive PFrame
  | transcription (text : String)
  | llmMessages (messages : List ChatMsg)
  | other (tag : Nat)
deriving DecidableEq, Repr

def isTranscriptionFrame : PFrame → Bool
  | .transcription _ => true
  | _ => false

/-- The f-string system instruction of `TranslationProcessor.process_frame`
(bot.py line 78). -/
def sysInstruction (inLang outLang : String) : String :=
  "You will be provided with a sentence in " ++ inLang ++
    ", and your task is to only translate it into " ++ outLang ++ "."

/-- `TranslationProcessor.process_frame` (bot.py lines 64–84): a
`TranscriptionFrame` is replaced by one `LLMMessagesFrame` pairing the
system instruction with the recognized text as user content; every
other frame is pushed through unchanged.  The returned list is the
sequence of frames pushed downstream for this input frame. -/
def processFrame (inLang outLang : String) : PFrame → List PFrame
  | .transcription t =>
      [.llmMessages [⟨"system", sysInstruction inLang outLang⟩, ⟨"user", t⟩]]
  | f => [f]

/-- The languages `bot.py`'s `main` configures (lines 165–166). -/
def inLanguage : String := "Bengali"

def outLanguage : String := "English"

/-- The stage applied to an ordered sequence of input frames. -/
def processFrames (inLang outLang : String) (fs : List PFrame) : List PFrame :=
  (fs.map (processFrame inLang outLang)).flatten

/-! ## bot.py: TranscriptHandler -/

/-- One finalized `TranscriptionMessage` of an update batch. -/
structure TMsg where
  role : String
  timestamp : Option String
  content : String
deriving DecidableEq, Repr

/-- The structured-logging record (`message` dict) built per entry in
`on_transcript_update` (bot.py lines 114–120). -/
structure TRecord where
  event : String
  timestamp : Option String
  role : String
  language : String
  text : String
deriving DecidableEq, Repr

/-- `TranscriptHandler` state: the accumulated message log and the two
immutable session languages. -/
structure THandler where
  messages : List TMsg
  in_language : String
  out_language : String
deriving DecidableEq, Repr

/-- Language resolution of bot.py line 118: target language for the
assistant role, source language otherwise. -/
def resolvedLanguage (h : THandler) (m : TMsg) : String :=
  if m.role = "assistant" then h.out_language else h.in_language

def recordOf (h : THandler) (m : TMsg) : TRecord :=
  ⟨"translation", m.timestamp, m.role, resolvedLanguage h m, m.content⟩

/-- `TranscriptHandler.on_transcript_update` (bot.py lines 99–121):
extends the message log with the batch in order and builds one record
per new entry. -/
def onTranscriptUpdate (h : THandler) (batch : List TMsg) : THandler × List TRecord :=
  ({ h with messages := h.messages ++ batch }, batch.map (recordOf h))

/-- A sequence of update notifications, collecting the per-batch
records. -/
def runUpdates (h : THandler) (batches : List (List TMsg)) :
    THandler × List (List TRecord) :=
  match batches with
  | [] => (h, [])
  | b :: bs =>
      let step := onTranscriptUpdate h b
      let rest := runUpdates step.1 bs
      (rest.1, step.2 :: rest.2)

/-- A first Start whose worker (pid 100) comes up while port 8765 is
not yet observed bound. -/
def cenvA : StartEnv :=
  { portInUse := false, platformWin32 := false, lsofAvail := true, lsofPids := [],
    scriptDir := "/srv/app", credsExists := true, envExists := true,
    spawnPid := 100, earlyExit := none }

/-- A second Start issued while the first worker is alive but has not
yet bound port 8765 (e.g. still loading), so the probe finds the port
free and no reclamation happens. -/
def cenvB : StartEnv := { cenvA with spawnPid := 101 }

/-! ## Supporting lemmas -/

theorem dlookup_dinsert_self {α : Type} (d : List (Nat × α)) (k : Nat) (v : α) :
    dlookup (dinsert d k v) k = some v := by
  induction d with
  | nil => simp [dinsert, dlookup]
  | cons p ps ih =>
    by_cases hk : p.1 = k
    · have hb : (p.1 == k) = true := beq_iff_eq.mpr hk
      simp [dinsert, dlookup, hb]
    · have hb : (p.1 == k) = false := by simpa using hk
      have h1 : dinsert (p :: ps) k v = p :: dinsert ps k v := by
        simp [dinsert, hb]
      have h2 : dlookup (p :: dinsert ps k v) k = dlookup (dinsert ps k v) k := by
        simp [dlookup, List.find?_cons, hb]
      rw [h1, h2]
      exact ih

theorem dlookup_isSome_of_mem_keys {α : Type} (d : List (Nat × α)) (k : Nat)
    (h : k ∈ d.map Prod.fst) : (dlookup d k).isSome = true := by
  induction d with
  | nil => simp at h
  | cons p ps ih =>
    rw [List.map_cons] at h
    by_cases hk : p.1 = k
    · have hb : (p.1 == k) = true := beq_iff_eq.mpr hk
      simp [dlookup, List.find?_cons, hb]
    · have hb : (p.1 == k) = false := by simpa using hk
      have h2 : dlookup (p :: ps) k = dlookup ps k := by
        simp [dlookup, List.find?_cons, hb]
      rw [h2]
      apply ih
      rcases List.mem_cons.mp h with h1 | h1
      · exact absurd h1.symm hk
      · exact h1

theorem foldl_max_choice (l : List Nat) :
    ∀ a : Nat, l.foldl max a = a ∨ l.foldl max a ∈ l := by
  induction l with
  | nil => intro a; left; rfl
  | cons b t ih =>
    intro a
    rw [List.foldl_cons]
    rcases ih (max a b) with h | h
    · rcases max_choice a b with hm | hm
      · left; rw [h, hm]
      · right; rw [h, hm]; exact List.mem_cons_self b t
    · right; exact List.mem_cons_of_mem b h

theorem listMax_mem (l : List Nat) (h : l ≠ []) : listMax l ∈ l := by
  cases l with
  | nil => exact absurd rfl h
  | cons b t =>
    show (b :: t).foldl max 0 ∈ b :: t
    rw [List.foldl_cons, Nat.zero_max]
    rcases foldl_max_choice t b with h1 | h1
    · rw [h1]; exact List.mem_cons_self b t
    · exact List.mem_cons_of_mem b h1

theorem sigkills_clear (pids : List Nat) :
    ∀ w : World, (∀ p ∈ w.alive, p ∈ pids) →
      ((pids.map Action.sigkill).foldl applyAction w).alive = [] := by
  induction pids with
  | nil =>
    intro w hw
    simp only [List.map_nil, List.foldl_nil]
    exact List.eq_nil_iff_forall_not_mem.mpr fun p hp => by simpa using hw p hp
  | cons q qs ih =>
    intro w hw
    simp only [List.map_cons, List.foldl_cons]
    apply ih
    intro p hp
    simp only [applyAction, List.mem_filter, bne_iff_ne, ne_eq,
      decide_eq_true_eq] at hp
    rcases List.mem_cons.mp (hw p hp.1) with h1 | h1
    · exact absurd h1 hp.2
    · exact h1

theorem reclaim_no_poll (e : StartEnv) :
    (reclaimActions e).countP isPollAction = 0 := by
  unfold reclaimActions
  by_cases hp : e.portInUse = true
  · rw [if_pos hp, List.countP_append]
    have h2 : List.countP isPollAction [Action.sleep 1] = 0 := rfl
    rw [h2, Nat.add_zero]
    by_cases hw : e.platformWin32 = true
    · rw [if_pos hw]; rfl
    · rw [if_neg hw]
      by_cases hl : e.lsofAvail = true
      · rw [if_pos hl, List.countP_map]
        apply List.countP_eq_zero.mpr
        intro a _
        simp [Function.comp, isPollAction]
      · rw [if_neg hl]; rfl
  · rw [if_neg hp]; rfl

theorem reclaim_no_spawn (e : StartEnv) :
    (reclaimActions e).countP isSpawnAction = 0 := by
  unfold reclaimActions
  by_cases hp : e.portInUse = true
  · rw [if_pos hp, List.countP_append]
    have h2 : List.countP isSpawnAction [Action.sleep 1] = 0 := rfl
    rw [h2, Nat.add_zero]
    by_cases hw : e.platformWin32 = true
    · rw [if_pos hw]; rfl
    · rw [if_neg hw]
      by_cases hl : e.lsofAvail = true
      · rw [if_pos hl, List.countP_map]
        apply List.countP_eq_zero.mpr
        intro a _
        simp [Function.comp, isSpawnAction]
      · rw [if_neg hl]; rfl
  · rw [if_neg hp]; rfl

/-! ## Theorems about the session-timeout handling (claim C2) -/

/-- C2 counterexample: `on_session_timeout` builds a fresh
`SessionTimeoutHandler` on every notification, so a second idle-timeout
notification is not ignored: starting from the initial session state,
two notifications in quick succession leave two pending
Interrupting→Ending timers (not one) and a duplicate injected
`BotInterruptionFrame`. -/
theorem bot_second_timeout_not_ignored :
    (onSessionTimeout (onSessionTimeout botInit)).pendingTimers = 2 ∧
    (onSessionTimeout (onSessionTimeout botInit)).queued =
      [BFrame.botInterruption, BFrame.botInterruption] ∧
    ¬ (onSessionTimeout (onSessionTimeout botInit)).pendingTimers = 1 := by
  refine ⟨rfl, rfl, ?_⟩
  decide

/-- C2 amended: no idle-timeout notification is ever ignored — `n`
notifications queue exactly `n` interruption frames and schedule
exactly `n` grace timers, each of which will later inject its own
interrupt/end pair. -/
theorem bot_timeout_accumulates (n : Nat) (s : BotState) :
    (onSessionTimeout^[n] s).pendingTimers = s.pendingTimers + n ∧
    (onSessionTimeout^[n] s).queued =
      s.queued ++ List.replicate n BFrame.botInterruption := by
  induction n with
  | zero => simp
  | succ k ih =>
    rw [Function.iterate_succ_apply']
    refine ⟨?_, ?_⟩
    · show (onSessionTimeout^[k] s).pendingTimers + 1 = s.pendingTimers + (k + 1)
      rw [ih.1, Nat.add_assoc]
    · show (onSessionTimeout^[k] s).queued ++ [BFrame.botInterruption] =
        s.queued ++ List.replicate (k + 1) BFrame.botInterruption
      rw [ih.2, List.replicate_succ', List.append_assoc]

/-! ## Theorems about the Translation Stage (claim C7) -/

/-- C7: a recognized-speech frame with text `t` yields exactly one
translation request whose system instruction is the fixed template
naming the configured source and target languages (for the configured
pair Bengali→English it restricts the backend to "only translate") and
whose user content is exactly `t`; any other frame passes through
unchanged, and a stream of non-transcription frames is emitted
unchanged and unreordered. -/
theorem translation_stage_exact (inL outL t : String) (f : PFrame) (fs : List PFrame)
    (hf : isTranscriptionFrame f = false)
    (hfs : ∀ g ∈ fs, isTranscriptionFrame g = false) :
    processFrame inL outL (.transcription t) =
      [.llmMessages [⟨"system", sysInstruction inL outL⟩, ⟨"user", t⟩]] ∧
    sysInstruction inLanguage outLanguage =
      "You will be provided with a sentence in Bengali, and your task is to only translate it into English." ∧
    processFrame inL outL f = [f] ∧
    processFrames inL outL fs = fs := by
  refine ⟨rfl, rfl, ?_, ?_⟩
  · cases f with
    | transcription t2 => simp [isTranscriptionFrame] at hf
    | llmMessages ms => rfl
    | other tag => rfl
  · induction fs with
    | nil => rfl
    | cons g gs ih =>
      have hg : processFrame inL outL g = [g] := by
        have hgf := hfs g (List.mem_cons_self g gs)
        cases g with
        | transcription t2 => simp [isTranscriptionFrame] at hgf
        | llmMessages ms => rfl
        | other tag => rfl
      have hrest := ih (fun g2 hg2 => hfs g2 (List.mem_cons_of_mem g hg2))
      simp only [processFrames, List.map_cons, List.flatten_cons, hg]
      simpa [processFrames] using hrest

/-- Witness for C7 at the configured languages, a concrete utterance,
and concrete non-transcription frames. -/
theorem translation_stage_exact_witness :
    processFrame "Bengali" "English" (.transcription "T") =
      [.llmMessages [⟨"system", sysInstruction "Bengali" "English"⟩, ⟨"user", "T"⟩]] ∧
    sysInstruction inLanguage outLanguage =
      "You will be provided with a sentence in Bengali, and your task is to only translate it into English." ∧
    processFrame "Bengali" "English" (.other 0) = [.other 0] ∧
    processFrames "Bengali" "English" [.other 3, .llmMessages []] =
      [.other 3, .llmMessages []] :=
  translation_stage_exact "Bengali" "English" "T" (.other 0)
    [.other 3, .llmMessages []] rfl (by decide)

/-! ## Theorems about the Transcript Aggregator (claim C8) -/

/-- C8: over any sequence of transcript-update batches, the message log
is the original log with every batch appended in arrival order (no
prior entry discarded or reordered), the configured languages never
change, each batch yields one record per entry, and each record's
resolved language is the target language exactly when the entry's role
is assistant and the source language otherwise. -/
theorem transcript_appends_in_order (h : THandler) (batches : List (List TMsg)) :
    (runUpdates h batches).1.messages = h.messages ++ batches.flatten ∧
    (runUpdates h batches).1.in_language = h.in_language ∧
    (runUpdates h batches).1.out_language = h.out_language ∧
    (runUpdates h batches).2 = batches.map (fun b => b.map (recordOf h)) ∧
    ∀ m : TMsg, (recordOf h m).language =
      (if m.role = "assistant" then h.out_language else h.in_language) := by
  induction batches generalizing h with
  | nil =>
    refine ⟨by simp [runUpdates], rfl, rfl, rfl, ?_⟩
    intro m
    rfl
  | cons b bs ih =>
    have hrec : recordOf { h with messages := h.messages ++ b } = recordOf h := rfl
    obtain ⟨ih1, ih2, ih3, ih4, _⟩ := ih { h with messages := h.messages ++ b }
    refine ⟨?_, ?_, ?_, ?_, ?_⟩
    · show (runUpdates { h with messages := h.messages ++ b } bs).1.messages =
        h.messages ++ (b :: bs).flatten
      rw [ih1]
      simp
    · exact ih2
    · exact ih3
    · show (onTranscriptUpdate h b).2 ::
          (runUpdates { h with messages := h.messages ++ b } bs).2 =
        (b :: bs).map (fun c => c.map (recordOf h))
      rw [ih4, hrec]
      rfl
    · intro m
      rfl

/-! ## Theorems about `_stop_bot` (claim C3) -/

/-- C3: a non-forced Stop on a tracked pid (when the termination
signals do not raise) sends SIGTERM, waits up to the fixed 3-second
grace window, escalates to SIGKILL exactly when the worker ignores the
graceful signal, reports success, removes the pid from the
active-process table, and leaves the log table untouched. -/
theorem stop_graceful_escalates (pid : Nat) (e : StopEnv) (w : World) (s : ServerState)
    (hpid : pid ≠ 0) (hact : pid ∈ s.active)
    (hterm : e.sigtermRaises = false) (hkill : e.sigkillRaises = false) :
    (stopStep (some pid) false none e w s).result = .success ∧
    pid ∉ (stopStep (some pid) false none e w s).state.active ∧
    (stopStep (some pid) false none e w s).state.logs = s.logs ∧
    (stopStep (some pid) false none e w s).actions =
      [.sigterm pid, .waitChild pid 3] ++
        (if e.gracefulExitInTime then [] else [.sigkill pid]) := by
  have hcond : ¬ (pid = 0 ∨ pid ∉ s.active) := by
    rintro (h | h)
    · exact hpid h
    · exact h hact
  have hnotmem : pid ∉ s.active.filter (fun a => a != pid) := by
    intro hmem
    have h2 := (List.mem_filter.mp hmem).2
    simp at h2
  have hstep : stopStep (some pid) false none e w s =
      ⟨⟨w.alive.filter (fun a => a != pid)⟩,
        ⟨s.active.filter (fun a => a != pid), s.logs⟩, .success,
        [.sigterm pid, .waitChild pid 3] ++
          (if e.gracefulExitInTime then [] else [.sigkill pid])⟩ := by
    by_cases hg : e.gracefulExitInTime = true
    · simp [stopStep, optTruthy, hcond, hterm, hg]
    · simp [stopStep, optTruthy, hcond, hterm, hkill, hg]
  rw [hstep]
  exact ⟨rfl, hnotmem, rfl, rfl⟩

/-- Witness for C3: a tracked worker (pid 7) that ignores SIGTERM. -/
theorem stop_graceful_escalates_witness :
    (stopStep (some 7) false none
        ⟨false, true, [], false, false, false⟩ ⟨[7]⟩ ⟨[7], [(7, ⟨["l"], []⟩)]⟩).result =
      .success ∧
    7 ∉ (stopStep (some 7) false none
        ⟨false, true, [], false, false, false⟩ ⟨[7]⟩ ⟨[7], [(7, ⟨["l"], []⟩)]⟩).state.active ∧
    (stopStep (some 7) false none
        ⟨false, true, [], false, false, false⟩ ⟨[7]⟩ ⟨[7], [(7, ⟨["l"], []⟩)]⟩).state.logs =
      (⟨[7], [(7, ⟨["l"], []⟩)]⟩ : ServerState).logs ∧
    (stopStep (some 7) false none
        ⟨false, true, [], false, false, false⟩ ⟨[7]⟩ ⟨[7], [(7, ⟨["l"], []⟩)]⟩).actions =
      [.sigterm 7, .waitChild 7 3] ++
        (if (⟨false, true, [], false, false, false⟩ : StopEnv).gracefulExitInTime
          then [] else [.sigkill 7]) :=
  stop_graceful_escalates 7 ⟨false, true, [], false, false, false⟩ ⟨[7]⟩
    ⟨[7], [(7, ⟨["l"], []⟩)]⟩ (by decide) (by decide) rfl rfl

/-! ## Theorems about `_start_bot` liveness polling (claim C4) -/

/-- C4: when the preflight artifacts exist, Start spawns, sleeps the
fixed 0.5-second delay, polls liveness exactly once, and reports
failure with the exit code and captured error output if the poll found
the process exited, success with the assigned pid otherwise. -/
theorem start_polls_once (e : StartEnv) (w : World) (s : ServerState)
    (hc : e.credsExists = true) (he : e.envExists = true) :
    (startStep e w s).actions =
      reclaimActions e ++ [.spawn e.spawnPid, .sleep (1/2), .poll e.spawnPid] ∧
    (startStep e w s).actions.countP isPollAction = 1 ∧
    (startStep e w s).result = (match e.earlyExit with
      | some ex => .earlyExitFail ex.returncode ex.stderr
      | none => .success e.spawnPid) := by
  have hacts : (startStep e w s).actions =
      reclaimActions e ++ [.spawn e.spawnPid, .sleep (1/2), .poll e.spawnPid] := by
    cases hx : e.earlyExit with
    | some ex => simp [startStep, hc, he, hx]
    | none => simp [startStep, hc, he, hx]
  refine ⟨hacts, ?_, ?_⟩
  · rw [hacts, List.countP_append, reclaim_no_poll]
    rfl
  · cases hx : e.earlyExit with
    | some ex => simp [startStep, hc, he, hx]
    | none => simp [startStep, hc, he, hx]

/-- Witness for C4: a Start whose worker exits within the 0.5-second
window with exit code 1. -/
theorem start_polls_once_witness :
    (startStep ⟨false, false, true, [], "/srv", true, true, 41, some ⟨1, "o", "err"⟩⟩
        initWorld initState).actions =
      reclaimActions ⟨false, false, true, [], "/srv", true, true, 41, some ⟨1, "o", "err"⟩⟩ ++
        [.spawn 41, .sleep (1/2), .poll 41] ∧
    (startStep ⟨false, false, true, [], "/srv", true, true, 41, some ⟨1, "o", "err"⟩⟩
        initWorld initState).actions.countP isPollAction = 1 ∧
    (startStep ⟨false, false, true, [], "/srv", true, true, 41, some ⟨1, "o", "err"⟩⟩
        initWorld initState).result =
      (match (some ⟨1, "o", "err"⟩ : Option EarlyExit) with
        | some ex => StartResult.earlyExitFail ex.returncode ex.stderr
        | none => StartResult.success 41) :=
  start_polls_once ⟨false, false, true, [], "/srv", true, true, 41, some ⟨1, "o", "err"⟩⟩
    initWorld initState rfl rfl

/-! ## Theorems about `_start_bot` preflight (claim C5) -/

/-- C5: a missing `creds.json` or `.env` makes Start fail fast with the
structured error naming the missing artifact, with no state change and
no spawn; `creds.json` is checked first. -/
theorem start_missing_artifact (e : StartEnv) (w : World) (s : ServerState)
    (h : e.credsExists = false ∨ e.envExists = false) :
    (startStep e w s).state = s ∧
    (startStep e w s).actions.countP isSpawnAction = 0 ∧
    (e.credsExists = false →
      (startStep e w s).result = .missingCreds (credsMsg e.scriptDir)) ∧
    (e.credsExists = true →
      (startStep e w s).result = .missingEnv (envMsg e.scriptDir)) := by
  by_cases hc : e.credsExists = true
  · have henv : e.envExists = false := h.resolve_left (by simp [hc])
    refine ⟨by simp [startStep, hc, henv], ?_, ?_, fun _ => by simp [startStep, hc, henv]⟩
    · have hacts : (startStep e w s).actions = reclaimActions e := by
        simp [startStep, hc, henv]
      rw [hacts, reclaim_no_spawn]
    · intro hfalse
      rw [hc] at hfalse
      exact absurd hfalse (by simp)
  · have hcf : e.credsExists = false := by simpa using hc
    refine ⟨by simp [startStep, hcf], ?_, fun _ => by simp [startStep, hcf], ?_⟩
    · have hacts : (startStep e w s).actions = reclaimActions e := by
        simp [startStep, hcf]
      rw [hacts, reclaim_no_spawn]
    · intro htrue
      rw [hcf] at htrue
      exact absurd htrue (by simp)

/-- Witness for C5: `.env` missing while `creds.json` exists. -/
theorem start_missing_artifact_witness :
    (startStep ⟨false, false, true, [], "/srv", true, false, 42, none⟩
        initWorld initState).state = initState ∧
    (startStep ⟨false, false, true, [], "/srv", true, false, 42, none⟩
        initWorld initState).actions.countP isSpawnAction = 0 ∧
    ((⟨false, false, true, [], "/srv", true, false, 42, none⟩ : StartEnv).credsExists = false →
      (startStep ⟨false, false, true, [], "/srv", true, false, 42, none⟩
        initWorld initState).result = .missingCreds (credsMsg "/srv")) ∧
    ((⟨false, false, true, [], "/srv", true, false, 42, none⟩ : StartEnv).credsExists = true →
      (startStep ⟨false, false, true, [], "/srv", true, false, 42, none⟩
        initWorld initState).result = .missingEnv (envMsg "/srv")) :=
  start_missing_artifact ⟨false, false, true, [], "/srv", true, false, 42, none⟩
    initWorld initState (Or.inr rfl)

/-! ## Theorems about Start's port reclamation (claim C6) -/

/-- C6: when the port probe finds port 8765 bound, reclamation signals
each pid the platform-specific lookup reports, falls back to a broad
kill by the worker's executable name when that lookup is unavailable
(`taskkill` on win32, `pkill -f bot.py` when `lsof` is missing), and
Start's response and resulting table state are exactly what they would
have been had the port been free — reclamation is best-effort and never
fails the call. -/
theorem start_reclamation_best_effort (e : StartEnv) (w : World) (s : ServerState)
    (hport : e.portInUse = true) :
    (e.platformWin32 = true → reclaimActions e = [.taskkillPython, .sleep 1]) ∧
    (e.platformWin32 = false → e.lsofAvail = true →
      reclaimActions e = e.lsofPids.map Action.sigkill ++ [.sleep 1]) ∧
    (e.platformWin32 = false → e.lsofAvail = false →
      reclaimActions e = [.pkillBotPy, .sleep 1]) ∧
    (startStep e w s).result = (startStep { e with portInUse := false } w s).result ∧
    (startStep e w s).state = (startStep { e with portInUse := false } w s).state := by
  refine ⟨?_, ?_, ?_, ?_, ?_⟩
  · intro hw2
    simp [reclaimActions, hport, hw2]
  · intro hw2 hl
    simp [reclaimActions, hport, hw2, hl]
  · intro hw2 hl
    simp [reclaimActions, hport, hw2, hl]
  · by_cases hc : e.credsExists = true
    · by_cases he : e.envExists = true
      · cases hx : e.earlyExit with
        | some ex => simp [startStep, hc, he, hx]
        | none => simp [startStep, hc, he, hx]
      · have hef : e.envExists = false := by simpa using he
        simp [startStep, hc, hef]
    · have hcf : e.credsExists = false := by simpa using hc
      simp [startStep, hcf]
  · by_cases hc : e.credsExists = true
    · by_cases he : e.envExists = true
      · cases hx : e.earlyExit with
        | some ex => simp [startStep, hc, he, hx]
        | none => simp [startStep, hc, he, hx]
      · have hef : e.envExists = false := by simpa using he
        simp [startStep, hc, hef]
    · have hcf : e.credsExists = false := by simpa using hc
      simp [startStep, hcf]

/-- Witness for C6: a bound port on a non-win32 host with `lsof`
reporting pids 11 and 12. -/
theorem start_reclamation_best_effort_witness :
    ((⟨true, false, true, [11, 12], "/srv", true, true, 43, none⟩ : StartEnv).platformWin32 = true →
      reclaimActions ⟨true, false, true, [11, 12], "/srv", true, true, 43, none⟩ =
        [.taskkillPython, .sleep 1]) ∧
    ((⟨true, false, true, [11, 12], "/srv", true, true, 43, none⟩ : StartEnv).platformWin32 = false →
      (⟨true, false, true, [11, 12], "/srv", true, true, 43, none⟩ : StartEnv).lsofAvail = true →
      reclaimActions ⟨true, false, true, [11, 12], "/srv", true, true, 43, none⟩ =
        [11, 12].map Action.sigkill ++ [.sleep 1]) ∧
    ((⟨true, false, true, [11, 12], "/srv", true, true, 43, none⟩ : StartEnv).platformWin32 = false →
      (⟨true, false, true, [11, 12], "/srv", true, true, 43, none⟩ : StartEnv).lsofAvail = false →
      reclaimActions ⟨true, false, true, [11, 12], "/srv", true, true, 43, none⟩ =
        [.pkillBotPy, .sleep 1]) ∧
    (startStep ⟨true, false, true, [11, 12], "/srv", true, true, 43, none⟩
        initWorld initState).result =
      (startStep { (⟨true, false, true, [11, 12], "/srv", true, true, 43, none⟩ : StartEnv) with
          portInUse := false } initWorld initState).result ∧
    (startStep ⟨true, false, true, [11, 12], "/srv", true, true, 43, none⟩
        initWorld initState).state =
      (startStep { (⟨true, false, true, [11, 12], "/srv", true, true, 43, none⟩ : StartEnv) with
          portInUse := false } initWorld initState).state :=
  start_reclamation_best_effort ⟨true, false, true, [11, 12], "/srv", true, true, 43, none⟩
    initWorld initState rfl

/-! ## Theorems about `_get_bot_logs` (claim C9) -/

/-- C9: a truthy pid with a log record gets that worker's ordered
stdout/stderr lines (empty lists are returned as such, not as an
error); a truthy pid with no record gets the structured "no bot logs
available" failure; with no pid, the record of the highest assigned pid
is returned whenever any record exists, and the structured failure
otherwise. -/
theorem get_logs_spec (s : ServerState) (pid : Nat) (l : Logs) (hpid : pid ≠ 0) :
    (dlookup s.logs pid = some l →
      getBotLogs (some pid) s = .ok pid l.stdout l.stderr) ∧
    (dlookup s.logs pid = none → getBotLogs (some pid) s = .noLogs) ∧
    (s.logs ≠ [] → ∃ m : Logs,
      dlookup s.logs (listMax (s.logs.map Prod.fst)) = some m ∧
      getBotLogs none s = .ok (listMax (s.logs.map Prod.fst)) m.stdout m.stderr) ∧
    (s.logs = [] → getBotLogs none s = .noLogs) := by
  refine ⟨?_, ?_, ?_, ?_⟩
  · intro h
    simp [getBotLogs, hpid, h]
  · intro h
    simp [getBotLogs, hpid, h]
  · intro h
    have hkeys : listMax (s.logs.map Prod.fst) ∈ s.logs.map Prod.fst :=
      listMax_mem _ (fun hh => h (by simpa using hh))
    have hsome := dlookup_isSome_of_mem_keys s.logs _ hkeys
    obtain ⟨m, hm⟩ := Option.isSome_iff_exists.mp hsome
    refine ⟨m, hm, ?_⟩
    have hne : s.logs.isEmpty = false := by
      simpa [List.isEmpty_iff] using h
    simp [getBotLogs, latestLogs, hne, hm]
  · intro h
    simp [getBotLogs, latestLogs, h]

/-- Witness for C9: a state with an empty record for pid 9 and a
record for pid 4; pid 9 is the highest assigned pid. -/
theorem get_logs_spec_witness :
    (dlookup (⟨[], [(4, ⟨["a"], ["b"]⟩), (9, ⟨[], []⟩)]⟩ : ServerState).logs 9 =
        some ⟨[], []⟩ →
      getBotLogs (some 9) ⟨[], [(4, ⟨["a"], ["b"]⟩), (9, ⟨[], []⟩)]⟩ = .ok 9 [] []) ∧
    (dlookup (⟨[], [(4, ⟨["a"], ["b"]⟩), (9, ⟨[], []⟩)]⟩ : ServerState).logs 9 = none →
      getBotLogs (some 9) ⟨[], [(4, ⟨["a"], ["b"]⟩), (9, ⟨[], []⟩)]⟩ = .noLogs) ∧
    ((⟨[], [(4, ⟨["a"], ["b"]⟩), (9, ⟨[], []⟩)]⟩ : ServerState).logs ≠ [] → ∃ m : Logs,
      dlookup (⟨[], [(4, ⟨["a"], ["b"]⟩), (9, ⟨[], []⟩)]⟩ : ServerState).logs
          (listMax ((⟨[], [(4, ⟨["a"], ["b"]⟩), (9, ⟨[], []⟩)]⟩ : ServerState).logs.map Prod.fst)) =
        some m ∧
      getBotLogs none ⟨[], [(4, ⟨["a"], ["b"]⟩), (9, ⟨[], []⟩)]⟩ =
        .ok (listMax ((⟨[], [(4, ⟨["a"], ["b"]⟩), (9, ⟨[], []⟩)]⟩ : ServerState).logs.map Prod.fst))
          m.stdout m.stderr) ∧
    ((⟨[], [(4, ⟨["a"], ["b"]⟩), (9, ⟨[], []⟩)]⟩ : ServerState).logs = [] →
      getBotLogs none ⟨[], [(4, ⟨["a"], ["b"]⟩), (9, ⟨[], []⟩)]⟩ = .noLogs) :=
  get_logs_spec ⟨[], [(4, ⟨["a"], ["b"]⟩), (9, ⟨[], []⟩)]⟩ 9 ⟨[], []⟩ (by decide)

/-! ## Theorems about the early-exit Start failure path (claim C10) -/

/-- C10: when the spawned worker exits within the liveness window,
Start reports the early-exit failure but leaves the pid registered in
both `active_processes` and `process_logs`; a subsequent Stop naming
that pid therefore never gets the "Process not found" answer. -/
theorem start_early_exit_leaves_entries (e : StartEnv) (w : World) (s : ServerState)
    (ex : EarlyExit) (hc : e.credsExists = true) (he : e.envExists = true)
    (hx : e.earlyExit = some ex) (hp : e.spawnPid ≠ 0) :
    (startStep e w s).result = .earlyExitFail ex.returncode ex.stderr ∧
    e.spawnPid ∈ (startStep e w s).state.active ∧
    (dlookup (startStep e w s).state.logs e.spawnPid).isSome = true ∧
    ∀ (se : StopEnv) (force : Bool) (w2 : World),
      (stopStep (some e.spawnPid) force none se w2 (startStep e w s).state).result ≠
        StopResult.notFound := by
  have hstate : (startStep e w s).state =
      ⟨insertKey s.active e.spawnPid, dinsert s.logs e.spawnPid ⟨[], []⟩⟩ := by
    simp [startStep, hc, he, hx]
  have hmem : e.spawnPid ∈ insertKey s.active e.spawnPid := by
    unfold insertKey
    by_cases hm : e.spawnPid ∈ s.active
    · rw [if_pos hm]; exact hm
    · rw [if_neg hm]
      exact List.mem_append_right _ (List.mem_singleton.mpr rfl)
  refine ⟨by simp [startStep, hc, he, hx], ?_, ?_, ?_⟩
  · rw [hstate]
    exact hmem
  · rw [hstate]
    show (dlookup (dinsert s.logs e.spawnPid ⟨[], []⟩) e.spawnPid).isSome = true
    rw [dlookup_dinsert_self]
    rfl
  · intro se force w2
    rw [hstate]
    have hcond : ¬ (e.spawnPid = 0 ∨ e.spawnPid ∉
        (⟨insertKey s.active e.spawnPid,
          dinsert s.logs e.spawnPid ⟨[], []⟩⟩ : ServerState).active) := by
      rintro (h1 | h1)
      · exact hp h1
      · exact h1 hmem
    by_cases hf : force = true
    · by_cases hk : se.sigkillRaises = true
      · simp [stopStep, optTruthy, hcond, hf, hk]
      · simp [stopStep, optTruthy, hcond, hf, hk]
    · by_cases ht : se.sigtermRaises = true
      · simp [stopStep, optTruthy, hcond, hf, ht]
      · by_cases hg : se.gracefulExitInTime = true
        · simp [stopStep, optTruthy, hcond, hf, ht, hg]
        · by_cases hk : se.sigkillRaises = true
          · simp [stopStep, optTruthy, hcond, hf, ht, hg, hk]
          · simp [stopStep, optTruthy, hcond, hf, ht, hg, hk]

/-- Witness for C10: a worker (pid 44) that exits with code 2 inside
the liveness window, then a graceful Stop naming pid 44. -/
theorem start_early_exit_leaves_entries_witness :
    (startStep ⟨false, false, true, [], "/srv", true, true, 44, some ⟨2, "", "boom"⟩⟩
        initWorld initState).result = .earlyExitFail 2 "boom" ∧
    44 ∈ (startStep ⟨false, false, true, [], "/srv", true, true, 44, some ⟨2, "", "boom"⟩⟩
        initWorld initState).state.active ∧
    (dlookup (startStep ⟨false, false, true, [], "/srv", true, true, 44, some ⟨2, "", "boom"⟩⟩
        initWorld initState).state.logs 44).isSome = true ∧
    (stopStep (some 44) false none ⟨false, true, [], true, false, false⟩ initWorld
        (startStep ⟨false, false, true, [], "/srv", true, true, 44, some ⟨2, "", "boom"⟩⟩
          initWorld initState).state).result ≠ StopResult.notFound := by
  have h := start_early_exit_leaves_entries
    ⟨false, false, true, [], "/srv", true, true, 44, some ⟨2, "", "boom"⟩⟩
    initWorld initState ⟨2, "", "boom"⟩ rfl rfl rfl (by decide)
  exact ⟨h.1, h.2.1, h.2.2.1, h.2.2.2 ⟨false, true, [], true, false, false⟩ false initWorld⟩

/-! ## Theorems about the single-active-worker invariant (claim C1) -/

/-- C1 counterexample: `_start_bot` never consults `active_processes`
before spawning and reclaims only by port occupancy, so when a second
Start runs before the first worker has bound port 8765, both workers
end up simultaneously alive and tracked in the active-process table:
after the two-Start sequence `[cenvA, cenvB]` the number of tracked
live workers is 2, refuting "at most one WorkerRecord is ever in
{Starting, Running} at a time for every sequence of start() and stop()
calls" at this concrete call sequence. -/
theorem supervisor_two_active_workers :
    ¬ (∀ (cs : List Call) (n : Nat),
        activeAliveCount (runCalls (cs.take n)).1 (runCalls (cs.take n)).2 ≤ 1) := by
  intro hinv
  have h2 := hinv [.start cenvA, .start cenvB] 2
  revert h2
  decide

/-- C1 amended: the supervisor supersedes a previous worker only
through port reclamation. When a Start observes port 8765 bound on a
non-win32 host where `lsof` is available and the lookup reports every
live worker, all of them are killed before the spawn, so immediately
after that Start at most one tracked worker is alive (the superseded
workers' table entries are merely dead keys, never removed). Without
the port being observed bound, no reclamation occurs and two live
tracked workers are possible, as the counterexample shows. -/
theorem start_port_reclaim_supersedes (e : StartEnv) (w : World) (s : ServerState)
    (hport : e.portInUse = true) (hwin : e.platformWin32 = false)
    (hlsof : e.lsofAvail = true)
    (hcover : ∀ p ∈ w.alive, p ∈ e.lsofPids) :
    activeAliveCount (startStep e w s).world (startStep e w s).state ≤ 1 := by
  have hreclaim : reclaimActions e = e.lsofPids.map Action.sigkill ++ [.sleep 1] := by
    simp [reclaimActions, hport, hwin, hlsof]
  have hw1 : ((reclaimActions e).foldl applyAction w).alive = [] := by
    rw [hreclaim, List.foldl_append]
    simp only [List.foldl_cons, List.foldl_nil]
    exact sigkills_clear e.lsofPids w hcover
  by_cases hc : e.credsExists = true
  · by_cases he : e.envExists = true
    · cases hx : e.earlyExit with
      | some ex =>
        have halive : (startStep e w s).world.alive = [] := by
          simp [startStep, hc, he, hx, hw1]
        simp [activeAliveCount, halive]
      | none =>
        have halive : (startStep e w s).world.alive = [e.spawnPid] := by
          simp [startStep, hc, he, hx, hw1]
        rw [activeAliveCount, halive]
        exact le_trans (List.length_filter_le _ _) (by simp)
    · have hef : e.envExists = false := by simpa using he
      have halive : (startStep e w s).world.alive = [] := by
        simp [startStep, hc, hef, hw1]
      simp [activeAliveCount, halive]
  · have hcf : e.credsExists = false := by simpa using hc
    have halive : (startStep e w s).world.alive = [] := by
      simp [startStep, hcf, hw1]
    simp [activeAliveCount, halive]

/-- Witness for the amended C1: a live tracked worker (pid 55) holds
the port, the lookup reports it, and a second Start reclaims it before
spawning pid 102. -/
theorem start_port_reclaim_supersedes_witness :
    activeAliveCount
      (startStep ⟨true, false, true, [55], "/srv/app", true, true, 102, none⟩
        ⟨[55]⟩ ⟨[55], [(55, ⟨[], []⟩)]⟩).world
      (startStep ⟨true, false, true, [55], "/srv/app", true, true, 102, none⟩
        ⟨[55]⟩ ⟨[55], [(55, ⟨[], []⟩)]⟩).state ≤ 1 :=
  start_port_reclaim_supersedes ⟨true, false, true, [55], "/srv/app", true, true, 102, none⟩
    ⟨[55]⟩ ⟨[55], [(55, ⟨[], []⟩)]⟩ rfl rfl rfl (by decide)

end Translate





